import Mathlib

/-!
Shallow embedding of `public/custom.js` (EMPS-2025/EM_Spark).

The repository holds one source file containing two successive versions of the
same client-side augmentation script; the first version (lines 4-278 of the
file) is embedded as namespace `V1`, the second (lines 283-481) as namespace
`V2`.  Both act on a shared page state `St` that records the parts of the
document and of the event loop the script touches: the host textarea, the host
submit button, the two possible anchor elements, the number of elements with id
`quick-actions` in the document, and the counts of live interval timers,
keydown listeners and mutation-observer subscriptions.

Deferred callbacks (`setTimeout` closures) are modelled as an explicit FIFO
queue `pending` of `(delay, TimerTask)` pairs; `runTimers` pops and runs them with
fuel.  In every scenario below the FIFO order coincides with the deadline
order of the queued timeouts.  Interval timers registered by `setInterval`
are counted in `intervalTimers`; their recurring ticks run `setPlaceholder`,
which is guarded by the `placeholderSet` marker and so never changes a marked
field, hence the ticks are not replayed individually.

The cached `sendButton` reference that `sendMessage` captures before its
100 ms delay is modelled by the Boolean carried by `TimerTask.clickSend`: whether a
submit control was resolved at call time.  At fire time the closure reads
`disabled` from the current control, exactly as the source reads the property
on the captured node; the model assumes the host does not swap the node for a
different one during the 100 ms delay, which is the case in every claim.

`HTMLElement.click()` on a disabled form control is a platform no-op (the
activation behaviour is suppressed), so `clickButton` records every click
call in `clickCalls` but bumps `activations` only when the control is enabled.
-/

/-- The host textarea (input field): its value, placeholder text, the
`dataset.placeholderSet` marker, whether it is focused, and how many bubbling
input events have been dispatched on it. -/
structure Textarea where
  value : String
  placeholder : String
  placeholderSet : Bool
  focused : Bool
  inputEvents : Nat
deriving DecidableEq

/-- The host submit control: its disabled flag, the number of `click()` calls
made on it, and the number of platform-level activations (a `click()` call on
a disabled form control is suppressed by the platform). -/
structure SendButton where
  disabled : Bool
  clickCalls : Nat
  activations : Nat
deriving DecidableEq

/-- A keyboard event, with the fields the handlers read. -/
structure KeyEvent where
  metaKey : Bool
  ctrlKey : Bool
  key : String
deriving DecidableEq

/-- The deferred callbacks the script schedules with `setTimeout`. -/
inductive TimerTask where
  /-- The `focusInput` closure: focus the textarea if present (500 ms). -/
  | focusTa : TimerTask
  /-- The `sendMessage` closure (100 ms); the Boolean records whether a submit
  control was resolved when `sendMessage` ran. -/
  | clickSend : Bool → TimerTask
  /-- The first version watcher re-runs `addQuickActions` after 500 ms. -/
  | addQA1 : TimerTask
  /-- The second version `addQuickActions` defers its insertion by 1000 ms. -/
  | insertQA2 : TimerTask
  /-- The second version bootstrap re-runs `onReady` after 1000 ms. -/
  | onReady2 : TimerTask
deriving DecidableEq

/-- The page state the script manipulates. -/
structure St where
  /-- `document.querySelector("textarea")`. -/
  textarea : Option Textarea
  /-- The submit control resolved by the send-button selectors. -/
  sendButton : Option SendButton
  /-- Whether the first version anchor (messages container / main) resolves. -/
  messagesContainer : Bool
  /-- Whether the second version anchor (composer / input box) resolves. -/
  inputArea : Bool
  /-- Number of elements with id `quick-actions` in the document. -/
  quickActionsCount : Nat
  /-- Number of live (never cleared) interval timers. -/
  intervalTimers : Nat
  /-- Number of registered document keydown listeners. -/
  keydownListeners : Nat
  /-- Number of live MutationObserver subscriptions. -/
  observers : Nat
  /-- Number of style elements appended to the document head. -/
  headStyles : Nat
  /-- FIFO queue of scheduled `setTimeout` callbacks with their delays. -/
  pending : List (Nat × TimerTask)
deriving DecidableEq

/-- The part of the state that is the document itself (used to state that an
operation does not mutate the document; timers, listeners and the timeout
queue are not document content). -/
structure DocView where
  textarea : Option Textarea
  sendButton : Option SendButton
  quickActionsCount : Nat
  headStyles : Nat
deriving DecidableEq

/-- Project the document content out of the page state. -/
def docOf (s : St) : DocView :=
  { textarea := s.textarea, sendButton := s.sendButton,
    quickActionsCount := s.quickActionsCount, headStyles := s.headStyles }

/-- `HTMLElement.click()` on the submit control: the call is always recorded;
the activation is suppressed by the platform when the control is disabled. -/
def clickButton (b : SendButton) : SendButton :=
  { b with clickCalls := b.clickCalls + 1,
           activations := if b.disabled then b.activations else b.activations + 1 }

namespace V1

/-- The guidance text of the first version (the quotation marks around the
embedded examples in the original literal are elided). -/
def placeholderText : String :=
  "Ask about energy markets... e.g., DAM yesterday or GDAM 20-50 slots Oct 2024"

/-- Lines 35-41: the `setPlaceholder` closure — if the textarea exists and is
not yet marked, set its placeholder and the `placeholderSet` marker. -/
def setPlaceholder (s : St) : St :=
  match s.textarea with
  | some ta =>
      if ta.placeholderSet then s
      else { s with textarea := some { ta with placeholder := placeholderText, placeholderSet := true } }
  | none => s

/-- Lines 34-45: run `setPlaceholder` once and register a repeating 1000 ms
interval running it again; the interval handle is discarded and never
cleared. -/
def updatePlaceholder (s : St) : St :=
  let s1 := setPlaceholder s
  { s1 with intervalTimers := s1.intervalTimers + 1 }

/-- Lines 51-58: schedule a 500 ms timeout that focuses the textarea. -/
def focusInput (s : St) : St :=
  { s with pending := s.pending ++ [(500, TimerTask.focusTa)] }

/-- The `data-query` strings of the four quick-action buttons (lines 131-146). -/
def quickActionQueries : List String :=
  ["DAM yesterday", "GDAM today", "Compare Nov 2022, 2023, 2024",
   "Show detailed list for last week"]

/-- Lines 64-163: if an element with id `quick-actions` already exists, do
nothing; otherwise build the container and, if the messages container anchor
resolves, insert it (synchronously) and attach the click handlers. -/
def addQuickActions (s : St) : St :=
  if s.quickActionsCount ≠ 0 then s
  else if s.messagesContainer then
    { s with quickActionsCount := s.quickActionsCount + 1 }
  else s

/-- Lines 225-246: `sendMessage` — resolve textarea and submit control at call
time; if the textarea is absent do nothing; otherwise set its value, dispatch
one bubbling input event, focus it, and schedule a 100 ms timeout that clicks
the control resolved at call time if it is (still) not disabled. -/
def sendMessage (text : String) (s : St) : St :=
  match s.textarea with
  | none => s
  | some ta =>
      { s with
        textarea := some { ta with value := text, inputEvents := ta.inputEvents + 1,
                                   focused := true },
        pending := s.pending ++ [(100, TimerTask.clickSend s.sendButton.isSome)] }

/-- Lines 156-161: the click listener of a quick-action button forwards its
`data-query` string to `sendMessage`. -/
def clickQuickAction (q : String) (s : St) : St :=
  sendMessage q s

/-- Lines 169-190: register the global keydown listener. -/
def setupKeyboardShortcuts (s : St) : St :=
  { s with keydownListeners := s.keydownListeners + 1 }

/-- Lines 170-189: the keydown handler — mod+k focuses the textarea (the text
selection is not modelled; no claim concerns it), Escape clears and blurs it
when it is the active element. -/
def handleKeydown (e : KeyEvent) (s : St) : St :=
  let s1 :=
    if (e.metaKey || e.ctrlKey) && e.key == "k" then
      match s.textarea with
      | some ta => { s with textarea := some { ta with focused := true } }
      | none => s
    else s
  if e.key == "Escape" then
    match s1.textarea with
    | some ta =>
        if ta.focused then
          { s1 with textarea := some { ta with value := "", focused := false } }
        else s1
    | none => s1
  else s1

/-- Lines 196-219: append a style element to the document head. -/
def addWelcomeAnimation (s : St) : St :=
  { s with headStyles := s.headStyles + 1 }

/-- Lines 253-260: the mutation-observer callback — run `updatePlaceholder`,
and if no element with id `quick-actions` exists, schedule `addQuickActions`
after 500 ms. -/
def mutationCallback (s : St) : St :=
  let s1 := updatePlaceholder s
  if s1.quickActionsCount = 0 then
    { s1 with pending := s1.pending ++ [(500, TimerTask.addQA1)] }
  else s1

/-- Lines 252-266: create a MutationObserver and observe `document.body`. -/
def observeChanges (s : St) : St :=
  { s with observers := s.observers + 1 }

/-- Lines 8-28: the bootstrap sequence of the first version. -/
def onReady (s : St) : St :=
  observeChanges (addWelcomeAnimation (setupKeyboardShortcuts
    (addQuickActions (focusInput (updatePlaceholder s)))))

end V1

namespace V2

/-- The guidance text of the second version (quotation marks elided as above). -/
def placeholderText : String :=
  "Ask about energy markets... e.g., DAM yesterday or GDAM 20-50 slots"

/-- Lines 313-319: the `setPlaceholder` closure of the second version. -/
def setPlaceholder (s : St) : St :=
  match s.textarea with
  | some ta =>
      if ta.placeholderSet then s
      else { s with textarea := some { ta with placeholder := placeholderText, placeholderSet := true } }
  | none => s

/-- Lines 312-322: run `setPlaceholder` once and register a repeating 1000 ms
interval, never cleared. -/
def updatePlaceholder (s : St) : St :=
  let s1 := setPlaceholder s
  { s1 with intervalTimers := s1.intervalTimers + 1 }

/-- Lines 327-334: schedule a 500 ms timeout that focuses the textarea. -/
def focusInput (s : St) : St :=
  { s with pending := s.pending ++ [(500, TimerTask.focusTa)] }

/-- The record of a quick-action example (spec data model: QuickActionEntry). -/
structure QuickActionEntry where
  emoji : String
  text : String
  query : String
deriving DecidableEq

/-- Lines 342-347: the fixed catalog of the second version. -/
def examples : List QuickActionEntry :=
  [{ emoji := "📊", text := "DAM rate today", query := "DAM rate for today" },
   { emoji := "🟢", text := "GDAM yesterday", query := "GDAM rate for yesterday" },
   { emoji := "🔵", text := "RTM last hour", query := "RTM rate for last hour" },
   { emoji := "📈", text := "Compare markets", query := "Compare DAM and GDAM for today" }]

/-- Lines 339-401: if an element with id `quick-actions` already exists in the
document, do nothing; otherwise build the container and its buttons and
schedule the insertion 1000 ms later.  The built container is not yet in the
document, so a second call made before the timeout fires passes the guard
again. -/
def addQuickActions (s : St) : St :=
  if s.quickActionsCount ≠ 0 then s
  else { s with pending := s.pending ++ [(1000, TimerTask.insertQA2)] }

/-- Lines 395-400: the deferred insertion closure — if the input-area anchor
resolves, insert the container before it (no presence re-check). -/
def insertQuickActions (s : St) : St :=
  if s.inputArea then { s with quickActionsCount := s.quickActionsCount + 1 }
  else s

/-- Lines 383-390: the click handler of a second-version button — set the
textarea value to the query, focus it, dispatch one bubbling input event.  It
does not call `sendMessage` and schedules no submit click. -/
def clickQuickAction (ex : QuickActionEntry) (s : St) : St :=
  match s.textarea with
  | none => s
  | some ta =>
      { s with textarea := some { ta with value := ex.query, focused := true,
                                          inputEvents := ta.inputEvents + 1 } }

/-- Lines 406-422: register the global keydown listener. -/
def setupKeyboardShortcuts (s : St) : St :=
  { s with keydownListeners := s.keydownListeners + 1 }

/-- Lines 407-421: the keydown handler — mod+k focuses the textarea; mod+Enter
resolves the send button and calls `click()` on it whenever it is present
(the handler itself performs no disabled check). -/
def handleKeydown (e : KeyEvent) (s : St) : St :=
  let s1 :=
    if (e.metaKey || e.ctrlKey) && e.key == "k" then
      match s.textarea with
      | some ta => { s with textarea := some { ta with focused := true } }
      | none => s
    else s
  if (e.metaKey || e.ctrlKey) && e.key == "Enter" then
    match s1.sendButton with
    | some b => { s1 with sendButton := some (clickButton b) }
    | none => s1
  else s1

/-- Lines 427-446: append a style element to the document head. -/
def addWelcomeAnimation (s : St) : St :=
  { s with headStyles := s.headStyles + 1 }

/-- Lines 452-458: the mutation-observer callback of the second version — it
only re-applies the placeholder when the textarea exists and is unmarked; it
never re-adds the quick-action panel. -/
def mutationCallback (s : St) : St :=
  match s.textarea with
  | some ta => if ta.placeholderSet then s else updatePlaceholder s
  | none => s

/-- Lines 451-469: create a MutationObserver and observe the document root. -/
def observeChanges (s : St) : St :=
  { s with observers := s.observers + 1 }

/-- Lines 287-307: the bootstrap sequence of the second version. -/
def onReady (s : St) : St :=
  observeChanges (addWelcomeAnimation (setupKeyboardShortcuts
    (addQuickActions (focusInput (updatePlaceholder s)))))

/-- Lines 472-479: run `onReady` at the ready signal and additionally schedule
a second `onReady` run 1000 ms later; there is no already-started guard. -/
def bootstrap (s : St) : St :=
  let s1 := onReady s
  { s1 with pending := s1.pending ++ [(1000, TimerTask.onReady2)] }

end V2

/-- Run one scheduled `setTimeout` callback. -/
def runTask : TimerTask → St → St
  | TimerTask.focusTa, s =>
      match s.textarea with
      | some ta => { s with textarea := some { ta with focused := true } }
      | none => s
  | TimerTask.clickSend hadButton, s =>
      if hadButton then
        match s.sendButton with
        | some b => if !b.disabled then { s with sendButton := some (clickButton b) }
                    else s
        | none => s
      else s
  | TimerTask.addQA1, s => V1.addQuickActions s
  | TimerTask.insertQA2, s => V2.insertQuickActions s
  | TimerTask.onReady2, s => V2.onReady s

/-- Pop and run up to `fuel` scheduled callbacks, front first. -/
def runTimers : Nat → St → St
  | 0, s => s
  | fuel + 1, s =>
      match s.pending with
      | [] => s
      | t :: rest => runTimers fuel (runTask t.2 { s with pending := rest })

/-! ### Concrete fixtures used by the witnesses and counterexamples -/

/-- A freshly rendered, unmarked, unfocused host textarea. -/
def taFresh : Textarea :=
  { value := "", placeholder := "", placeholderSet := false, focused := false,
    inputEvents := 0 }

/-- A textarea the user has edited after the placeholder marker was set. -/
def taMarked : Textarea :=
  { value := "draft typed by the user", placeholder := "custom placeholder",
    placeholderSet := true, focused := false, inputEvents := 0 }

/-- An enabled submit control with no recorded clicks. -/
def btnEnabled : SendButton := { disabled := false, clickCalls := 0, activations := 0 }

/-- A disabled submit control with no recorded clicks. -/
def btnDisabled : SendButton := { disabled := true, clickCalls := 0, activations := 0 }

/-- A fully rendered host page on which no element with id `quick-actions` is
present (either never injected or just removed): textarea and enabled submit
control exist, both anchors resolve, no timeout is pending. -/
def hostReady : St :=
  { textarea := some taFresh, sendButton := some btnEnabled, messagesContainer := true,
    inputArea := true, quickActionsCount := 0, intervalTimers := 0, keydownListeners := 0,
    observers := 0, headStyles := 0, pending := [] }

/-- The empty page before the host has rendered anything. -/
def initialState : St :=
  { textarea := none, sendButton := none, messagesContainer := false, inputArea := false,
    quickActionsCount := 0, intervalTimers := 0, keydownListeners := 0, observers := 0,
    headStyles := 0, pending := [] }

/-- A Ctrl+Enter keyboard event. -/
def ctrlEnter : KeyEvent := { metaKey := false, ctrlKey := true, key := "Enter" }

/-! ### Frame lemmas -/

/-- The first version `setPlaceholder` changes at most the textarea. -/
theorem setPlaceholder_v1_frame (s : St) :
    (V1.setPlaceholder s).sendButton = s.sendButton ∧
    (V1.setPlaceholder s).messagesContainer = s.messagesContainer ∧
    (V1.setPlaceholder s).inputArea = s.inputArea ∧
    (V1.setPlaceholder s).quickActionsCount = s.quickActionsCount ∧
    (V1.setPlaceholder s).intervalTimers = s.intervalTimers ∧
    (V1.setPlaceholder s).keydownListeners = s.keydownListeners ∧
    (V1.setPlaceholder s).observers = s.observers ∧
    (V1.setPlaceholder s).headStyles = s.headStyles ∧
    (V1.setPlaceholder s).pending = s.pending := by
  unfold V1.setPlaceholder
  rcases h : s.textarea with _ | ta
  · simp
  · by_cases hp : ta.placeholderSet <;> simp [hp]

/-- The first version `updatePlaceholder` changes at most the textarea and
bumps the live interval-timer count by one. -/
theorem updatePlaceholder_v1_frame (s : St) :
    (V1.updatePlaceholder s).sendButton = s.sendButton ∧
    (V1.updatePlaceholder s).messagesContainer = s.messagesContainer ∧
    (V1.updatePlaceholder s).inputArea = s.inputArea ∧
    (V1.updatePlaceholder s).quickActionsCount = s.quickActionsCount ∧
    (V1.updatePlaceholder s).intervalTimers = s.intervalTimers + 1 ∧
    (V1.updatePlaceholder s).keydownListeners = s.keydownListeners ∧
    (V1.updatePlaceholder s).observers = s.observers ∧
    (V1.updatePlaceholder s).headStyles = s.headStyles ∧
    (V1.updatePlaceholder s).pending = s.pending := by
  unfold V1.updatePlaceholder
  simp [setPlaceholder_v1_frame s]

/-- A textarea already carrying the marker is left alone by the first version
`setPlaceholder`. -/
theorem setPlaceholder_v1_marked (s : St) (ta : Textarea)
    (hta : s.textarea = some ta) (hm : ta.placeholderSet = true) :
    V1.setPlaceholder s = s := by
  unfold V1.setPlaceholder
  rw [hta]
  simp [hm]

/-- The first version injector changes at most the quick-actions count. -/
theorem addQuickActions_v1_frame (s : St) :
    (V1.addQuickActions s).textarea = s.textarea ∧
    (V1.addQuickActions s).sendButton = s.sendButton ∧
    (V1.addQuickActions s).messagesContainer = s.messagesContainer ∧
    (V1.addQuickActions s).inputArea = s.inputArea ∧
    (V1.addQuickActions s).intervalTimers = s.intervalTimers ∧
    (V1.addQuickActions s).keydownListeners = s.keydownListeners ∧
    (V1.addQuickActions s).observers = s.observers ∧
    (V1.addQuickActions s).headStyles = s.headStyles ∧
    (V1.addQuickActions s).pending = s.pending := by
  unfold V1.addQuickActions
  by_cases h0 : s.quickActionsCount ≠ 0
  · simp [h0]
  · by_cases hm : s.messagesContainer <;> simp [h0, hm]

/-- One run of the first version bootstrap registers exactly one keydown
listener and one observer subscription. -/
theorem onReady_v1_counts (s : St) :
    (V1.onReady s).keydownListeners = s.keydownListeners + 1 ∧
    (V1.onReady s).observers = s.observers + 1 := by
  unfold V1.onReady V1.observeChanges V1.addWelcomeAnimation V1.setupKeyboardShortcuts
    V1.focusInput
  simp [addQuickActions_v1_frame, updatePlaceholder_v1_frame]

/-- The first version mutation callback registers exactly one new interval
timer per delivered batch. -/
theorem mutationCallback_v1_timers (s : St) :
    (V1.mutationCallback s).intervalTimers = s.intervalTimers + 1 := by
  have h := updatePlaceholder_v1_frame s
  unfold V1.mutationCallback
  by_cases hq : (V1.updatePlaceholder s).quickActionsCount = 0 <;>
    simp [hq, h.2.2.2.2.1]

/-- Shared dispatcher lemma: with the textarea present, the submit control
present and enabled, and no other timeout pending, `sendMessage text` sets the
value to `text`, dispatches exactly one bubbling input event, focuses the
field, and after the 100 ms delay fires produces exactly one click call and
one activation on the control. -/
theorem sendMessage_dispatch (text : String) (s : St) (ta : Textarea) (b : SendButton)
    (hta : s.textarea = some ta) (hb : s.sendButton = some b)
    (hen : b.disabled = false) (hp : s.pending = []) :
    (runTimers 1 (V1.sendMessage text s)).textarea =
      some { ta with value := text, inputEvents := ta.inputEvents + 1, focused := true } ∧
    (runTimers 1 (V1.sendMessage text s)).sendButton =
      some { b with clickCalls := b.clickCalls + 1, activations := b.activations + 1 } := by
  unfold V1.sendMessage
  rw [hta]
  simp [hb, hp, runTimers, runTask, clickButton, hen]

/-- C1: the claim reads — with the quick-action panel removed from the
document, delivering one mutation batch to the watcher restores exactly one
element with id quick-actions.  Counterexample on the second version watcher
(source lines 451-469): from a fully rendered page with zero panels, one
batch plus every pending timeout leaves zero panels; that watcher only
re-applies the placeholder and never re-invokes the injector. -/
theorem c1_counterexample :
    (runTimers 4 (V2.mutationCallback hostReady)).quickActionsCount = 0 := by rfl

/-- C1 (amended): in the first version watcher (source lines 252-266), with
the panel absent, the anchor resolvable and no other timeout pending, one
mutation batch schedules the injector with a 500 ms delay, and once that
deferred call fires exactly one element with id quick-actions is present. -/
theorem c1_theorem (s : St) (hcount : s.quickActionsCount = 0)
    (hanchor : s.messagesContainer = true) (hpending : s.pending = []) :
    (runTimers 1 (V1.mutationCallback s)).quickActionsCount = 1 := by
  have h := updatePlaceholder_v1_frame s
  unfold V1.mutationCallback
  simp [h.2.2.2.1, h.2.2.2.2.2.2.2.2, hcount, hpending, runTimers, runTask,
    V1.addQuickActions, h.2.1, hanchor]

/-- C1 witness: the amended self-healing property at the concrete rendered
page with the panel removed. -/
theorem c1_witness :
    (runTimers 1 (V1.mutationCallback hostReady)).quickActionsCount = 1 :=
  c1_theorem hostReady rfl rfl rfl

/-- C2: the claim reads — the keydown listener and the observation
subscription are created exactly once for the page lifetime, re-initialization
being guarded.  Counterexample: the second version bootstrap (source lines
472-479) itself runs `onReady` twice, once at the ready signal and once from
an unconditional 1000 ms timeout, and no already-started guard exists, so the
page ends with two keydown listeners and two observer subscriptions. -/
theorem c2_counterexample :
    (runTimers 8 (V2.bootstrap initialState)).keydownListeners = 2 ∧
    (runTimers 8 (V2.bootstrap initialState)).observers = 2 := ⟨rfl, rfl⟩

/-- C2 (amended): no re-initialization guard exists; every run of the first
version `onReady` adds exactly one keydown listener and one observer
subscription, so n runs add n of each, and the second version bootstrap,
which runs `onReady` twice by design, yields two of each. -/
theorem c2_theorem (s : St) (n : Nat) :
    ((V1.onReady)^[n] s).keydownListeners = s.keydownListeners + n ∧
    ((V1.onReady)^[n] s).observers = s.observers + n ∧
    (runTimers 8 (V2.bootstrap initialState)).keydownListeners = 2 ∧
    (runTimers 8 (V2.bootstrap initialState)).observers = 2 := by
  have hl : ∀ (m : Nat) (t : St),
      ((V1.onReady)^[m] t).keydownListeners = t.keydownListeners + m := by
    intro m
    induction m with
    | zero => intro t; simp
    | succ m ih =>
        intro t
        rw [Function.iterate_succ_apply, ih, (onReady_v1_counts t).1]
        omega
  have ho : ∀ (m : Nat) (t : St),
      ((V1.onReady)^[m] t).observers = t.observers + m := by
    intro m
    induction m with
    | zero => intro t; simp
    | succ m ih =>
        intro t
        rw [Function.iterate_succ_apply, ih, (onReady_v1_counts t).2]
        omega
  exact ⟨hl n s, ho n s, rfl, rfl⟩

/-- C3: the claim reads — two successive calls of the injector with no
removal in between leave exactly one element with id quick-actions.
Counterexample on the second version injector (source lines 339-401): its
insertion is deferred by a 1000 ms timeout, so the second immediate call still
finds zero elements in the document, passes the presence guard, and once both
timeouts fire the document holds two elements with id quick-actions. -/
theorem c3_counterexample :
    (runTimers 4 (V2.addQuickActions (V2.addQuickActions hostReady))).quickActionsCount = 2 := by
  rfl

/-- C3 (amended): the first version injector (source lines 64-163), whose
insertion is synchronous, is idempotent: a second call is a no-op on any
state, and with the anchor resolvable and at most one panel present two
successive calls leave exactly one element with id quick-actions. -/
theorem c3_theorem (s : St) (hanchor : s.messagesContainer = true)
    (hcount : s.quickActionsCount ≤ 1) :
    V1.addQuickActions (V1.addQuickActions s) = V1.addQuickActions s ∧
    (V1.addQuickActions (V1.addQuickActions s)).quickActionsCount = 1 := by
  have key : ∀ t : St, V1.addQuickActions (V1.addQuickActions t) = V1.addQuickActions t := by
    intro t
    by_cases h0 : t.quickActionsCount = 0
    · by_cases hm : t.messagesContainer = true
      · simp [V1.addQuickActions, h0, hm]
      · simp [V1.addQuickActions, h0, hm]
    · simp [V1.addQuickActions, h0]
  refine ⟨key s, ?_⟩
  rcases Nat.le_one_iff_eq_zero_or_eq_one.mp hcount with h0 | h1
  · simp [V1.addQuickActions, h0, hanchor]
  · simp [V1.addQuickActions, h1]

/-- C3 witness: the amended idempotence at the concrete rendered page. -/
theorem c3_witness :
    V1.addQuickActions (V1.addQuickActions hostReady) = V1.addQuickActions hostReady ∧
    (V1.addQuickActions (V1.addQuickActions hostReady)).quickActionsCount = 1 :=
  c3_theorem hostReady rfl (by decide)

/-- C4: with the input field present and the submit control present and
enabled through the fixed delay (no other timeout pending), `sendMessage text`
leaves the field value equal to `text`, dispatches exactly one bubbling input
event on it, focuses it, and after the 100 ms delay fires performs exactly one
invocation of the submit control (one click call, one activation). -/
theorem c4_theorem (text : String) (s : St) (ta : Textarea) (b : SendButton)
    (hta : s.textarea = some ta) (hb : s.sendButton = some b)
    (hen : b.disabled = false) (hp : s.pending = []) :
    (runTimers 1 (V1.sendMessage text s)).textarea =
      some { ta with value := text, inputEvents := ta.inputEvents + 1, focused := true } ∧
    (runTimers 1 (V1.sendMessage text s)).sendButton =
      some { b with clickCalls := b.clickCalls + 1, activations := b.activations + 1 } :=
  sendMessage_dispatch text s ta b hta hb hen hp

/-- C4 witness: the dispatcher contract at the concrete rendered page with the
spec example text. -/
theorem c4_witness :
    (runTimers 1 (V1.sendMessage "RTM rate for last hour" hostReady)).textarea =
      some { taFresh with value := "RTM rate for last hour", inputEvents := 1,
                          focused := true } ∧
    (runTimers 1 (V1.sendMessage "RTM rate for last hour" hostReady)).sendButton =
      some { btnEnabled with clickCalls := 1, activations := 1 } :=
  c4_theorem "RTM rate for last hour" hostReady taFresh btnEnabled rfl rfl rfl rfl

/-- C5: the claim reads — `sendMessage` resolves the submit control only after
the fixed delay, so a control that is absent at call time but present and
enabled when the delay fires is still invoked.  Counterexample: the source
resolves the control at call time (line 227) and the delayed closure uses that
cached result, so when no control exists at call time and an enabled one
appears before the delay fires, the control records zero clicks and the
message is not submitted. -/
theorem c5_counterexample :
    (runTimers 1 { V1.sendMessage "RTM rate for last hour"
        { hostReady with sendButton := none } with
      sendButton := some btnEnabled }).sendButton = some btnEnabled := by rfl

/-- C5 (amended): the submit control is resolved at call time and the 100 ms
closure keeps that resolution (only the disabled flag is read at fire time);
if no control exists when `sendMessage` is called, then whatever control the
host renders during the delay is left untouched when the delay fires. -/
theorem c5_theorem (text : String) (s : St) (b : SendButton)
    (hb : s.sendButton = none) (hp : s.pending = []) :
    (runTimers 1 { V1.sendMessage text s with sendButton := some b }).sendButton =
      some b := by
  unfold V1.sendMessage
  rcases h : s.textarea with _ | ta
  · simp [hp, runTimers]
  · simp [hb, hp, runTimers, runTask]

/-- C5 witness: the amended cached-resolution property at a concrete page
where a disabled control appears during the delay. -/
theorem c5_witness :
    (runTimers 1 { V1.sendMessage "DAM yesterday"
        { hostReady with sendButton := none } with
      sendButton := some btnDisabled }).sendButton = some btnDisabled :=
  c5_theorem "DAM yesterday" { hostReady with sendButton := none } btnDisabled rfl rfl

/-- C6: once the `placeholderSet` marker is set on the input field, any number
of further runs of the placeholder maintainer leave the field (its value and
its placeholder text) unchanged, whatever the field currently contains: the
decision reads only the marker. -/
theorem c6_theorem (s : St) (ta : Textarea) (n : Nat)
    (hta : s.textarea = some ta) (hmark : ta.placeholderSet = true) :
    ((V1.updatePlaceholder)^[n] s).textarea = some ta := by
  induction n generalizing s with
  | zero => simpa using hta
  | succ n ih =>
      rw [Function.iterate_succ_apply]
      refine ih (V1.updatePlaceholder s) ?_
      unfold V1.updatePlaceholder
      simp [setPlaceholder_v1_marked s ta hta hmark, hta]

/-- C6 witness: three further maintainer runs on a marked field that the user
has since edited leave the field exactly as the user left it. -/
theorem c6_witness :
    ((V1.updatePlaceholder)^[3] { hostReady with textarea := some taMarked }).textarea =
      some taMarked :=
  c6_theorem { hostReady with textarea := some taMarked } taMarked 3 rfl rfl

/-- C7: the claim reads — every quick-action button click forwards its query
through the message dispatcher: value set, one bubbling input event, and after
the fixed delay one submit invocation if the control is present and enabled.
Counterexample on the second version buttons (source lines 383-390): clicking
the first catalog button on a page with an enabled submit control schedules
nothing and leaves the control with zero clicks; that handler inlines only the
value, focus and input-event half of the pathway and never invokes submit. -/
theorem c7_counterexample :
    (runTimers 4 (V2.clickQuickAction
        { emoji := "📊", text := "DAM rate today", query := "DAM rate for today" }
        hostReady)).sendButton = some btnEnabled ∧
    (V2.clickQuickAction
        { emoji := "📊", text := "DAM rate today", query := "DAM rate for today" }
        hostReady).pending = [] := ⟨rfl, rfl⟩

/-- C7 (amended): in the first version (source lines 156-161) each button
click is exactly `sendMessage` applied to the button query, so for every
catalog query the full dispatcher pathway runs: value set, one input event,
focus, and one submit invocation once the delay fires. -/
theorem c7_theorem (q : String) (s : St) (ta : Textarea) (b : SendButton)
    (hq : q ∈ V1.quickActionQueries) (hta : s.textarea = some ta)
    (hb : s.sendButton = some b) (hen : b.disabled = false) (hp : s.pending = []) :
    V1.clickQuickAction q s = V1.sendMessage q s ∧
    (runTimers 1 (V1.clickQuickAction q s)).textarea =
      some { ta with value := q, inputEvents := ta.inputEvents + 1, focused := true } ∧
    (runTimers 1 (V1.clickQuickAction q s)).sendButton =
      some { b with clickCalls := b.clickCalls + 1, activations := b.activations + 1 } := by
  obtain ⟨h1, h2⟩ := sendMessage_dispatch q s ta b hta hb hen hp
  exact ⟨rfl, h1, h2⟩

/-- C7 witness: the amended forwarding property for the second catalog button
at the concrete rendered page. -/
theorem c7_witness :
    V1.clickQuickAction "GDAM today" hostReady = V1.sendMessage "GDAM today" hostReady ∧
    (runTimers 1 (V1.clickQuickAction "GDAM today" hostReady)).textarea =
      some { taFresh with value := "GDAM today", inputEvents := 1, focused := true } ∧
    (runTimers 1 (V1.clickQuickAction "GDAM today" hostReady)).sendButton =
      some { btnEnabled with clickCalls := 1, activations := 1 } :=
  c7_theorem "GDAM today" hostReady taFresh btnEnabled (by decide) rfl rfl rfl rfl

/-- C8: the claim reads — on mod+Enter the handler invokes the submit control
only if present and not disabled, so a disabled control records zero submit
invocations.  Counterexample on the handler as written (source lines 415-420):
it checks only presence, so with a disabled control present, one mod+Enter
performs one click call on it (the zero in `activations` is the platform
suppressing `click()` on a disabled form control, not the handler checking). -/
theorem c8_counterexample :
    (V2.handleKeydown ctrlEnter { hostReady with sendButton := some btnDisabled }).sendButton =
      some { disabled := true, clickCalls := 1, activations := 0 } := by rfl

/-- C8 (amended): the mod+Enter branch resolves the submit control and calls
`click()` on it whenever it is present, without reading its disabled state:
with a disabled control present the handler still performs exactly one click
call, and the activation count is unchanged only because the platform ignores
`click()` on disabled form controls. -/
theorem c8_theorem (e : KeyEvent) (s : St) (b : SendButton)
    (hmod : (e.metaKey || e.ctrlKey) = true) (hkey : e.key = "Enter")
    (hb : s.sendButton = some b) (hdis : b.disabled = true) :
    (V2.handleKeydown e s).sendButton = some { b with clickCalls := b.clickCalls + 1 } := by
  unfold V2.handleKeydown
  rw [hkey]
  simp [hmod, hb, clickButton, hdis]

/-- C8 witness: the amended shortcut behaviour at the concrete page with a
disabled submit control. -/
theorem c8_witness :
    (V2.handleKeydown ctrlEnter { hostReady with sendButton := some btnDisabled }).sendButton =
      some { btnDisabled with clickCalls := 1 } :=
  c8_theorem ctrlEnter { hostReady with sendButton := some btnDisabled } btnDisabled
    rfl rfl rfl rfl

/-- C9: every operation invoked while its target host element is absent
completes (it is a total function, mirroring the guards in the source) and
leaves the document unchanged: the focus managers, the message dispatcher,
both injectors and both placeholder maintainers are document no-ops on a page
with no textarea, no resolvable anchor, and nothing pending. -/
theorem c9_theorem (t : String) (s : St)
    (hta : s.textarea = none) (hmc : s.messagesContainer = false)
    (hia : s.inputArea = false) (hp : s.pending = []) :
    docOf (runTimers 1 (V1.focusInput s)) = docOf s ∧
    docOf (runTimers 1 (V2.focusInput s)) = docOf s ∧
    V1.sendMessage t s = s ∧
    V1.addQuickActions s = s ∧
    docOf (runTimers 1 (V2.addQuickActions s)) = docOf s ∧
    docOf (V1.updatePlaceholder s) = docOf s ∧
    docOf (V2.updatePlaceholder s) = docOf s := by
  refine ⟨?_, ?_, ?_, ?_, ?_, ?_, ?_⟩
  · simp [V1.focusInput, hp, runTimers, runTask, hta, docOf]
  · simp [V2.focusInput, hp, runTimers, runTask, hta, docOf]
  · simp [V1.sendMessage, hta]
  · unfold V1.addQuickActions
    by_cases h0 : s.quickActionsCount ≠ 0 <;> simp [h0, hmc]
  · unfold V2.addQuickActions
    by_cases h0 : s.quickActionsCount ≠ 0
    · simp [h0, hp, runTimers]
    · simp [h0, hp, runTimers, runTask, V2.insertQuickActions, hia, docOf]
  · simp [V1.updatePlaceholder, V1.setPlaceholder, hta, docOf]
  · simp [V2.updatePlaceholder, V2.setPlaceholder, hta, docOf]

/-- C9 witness: absent-target safety on the empty page before the host has
rendered. -/
theorem c9_witness :
    docOf (runTimers 1 (V1.focusInput initialState)) = docOf initialState ∧
    docOf (runTimers 1 (V2.focusInput initialState)) = docOf initialState ∧
    V1.sendMessage "DAM yesterday" initialState = initialState ∧
    V1.addQuickActions initialState = initialState ∧
    docOf (runTimers 1 (V2.addQuickActions initialState)) = docOf initialState ∧
    docOf (V1.updatePlaceholder initialState) = docOf initialState ∧
    docOf (V2.updatePlaceholder initialState) = docOf initialState :=
  c9_theorem "DAM yesterday" initialState rfl rfl rfl rfl

/-- C10: every run of the first version `updatePlaceholder` registers one new
repeating interval timer whose handle is discarded, nothing ever clears one,
and the first version mutation callback runs `updatePlaceholder` on every
batch, so n delivered batches grow the live interval-timer count by exactly n,
without bound. -/
theorem c10_theorem (s : St) (n : Nat) :
    ((V1.mutationCallback)^[n] s).intervalTimers = s.intervalTimers + n ∧
    (V1.updatePlaceholder s).intervalTimers = s.intervalTimers + 1 := by
  constructor
  · induction n generalizing s with
    | zero => simp
    | succ n ih =>
        rw [Function.iterate_succ_apply, ih (V1.mutationCallback s),
          mutationCallback_v1_timers s]
        omega
  · exact (updatePlaceholder_v1_frame s).2.2.2.2.1
